import Mathlib

/-!
Verification development for the GCM clustering pipeline script
(`gcm_pipeline/gcm_script.py`).

The script orchestrates: stage input into a scratch directory, run an
external formatter, an external work script and an external clustering
binary, remap the clustering result back to the original node ids, and
publish the result while tearing the scratch directory down.

We shallowly embed the script: file contents become `List String` (one
entry per line, line terminators stripped, exactly as Python's
`str.split` / `str.strip` consumers see them), the pure remapping logic
becomes Lean functions returning `Except`, and the effectful pipeline
becomes functions from an explicit environment (describing what the
external world does) to a result together with a trace of effects.
-/

set_option autoImplicit false

namespace GcmSpec

/-! ### Python string primitives

Faithful models of the Python string operations the script uses:
`str.strip()`, `str.split()` (no separator: split on whitespace runs,
no empty fields) and `int(...)` (optional sign followed by digits,
surrounding whitespace ignored; underscore digit separators and
non-ASCII digits, which no pipeline file ever contains, are not
modelled). -/

/-- Python `str.strip()`: drop whitespace from both ends. -/
def pyStrip (s : String) : String :=
  ⟨((s.toList.dropWhile Char.isWhitespace).reverse.dropWhile Char.isWhitespace).reverse⟩

/-- Helper for `pySplit`: split a character list on whitespace runs. -/
def splitWsAux : List Char → List Char → List (List Char)
  | [], acc => if acc.isEmpty then [] else [acc.reverse]
  | c :: cs, acc =>
    if c.isWhitespace then
      if acc.isEmpty then splitWsAux cs [] else acc.reverse :: splitWsAux cs []
    else
      splitWsAux cs (c :: acc)

/-- Python `str.split()` with no argument: fields separated by runs of
whitespace, leading/trailing whitespace produces no empty fields. -/
def pySplit (s : String) : List String :=
  (splitWsAux s.toList []).map (fun l => ⟨l⟩)

/-- Decimal value of a digit list. -/
def digitsVal (cs : List Char) : Nat :=
  cs.foldl (fun n c => 10 * n + (c.toNat - 48)) 0

/-- Python `int(s)`: strips whitespace, accepts an optional single sign
followed by at least one decimal digit; anything else raises
`ValueError`, modelled as `none`. -/
def pyParseInt (s : String) : Option Int :=
  match (pyStrip s).toList with
  | [] => none
  | c :: cs =>
    if c = '-' then
      if !cs.isEmpty && cs.all Char.isDigit then some (-(digitsVal cs : Int)) else none
    else if c = '+' then
      if !cs.isEmpty && cs.all Char.isDigit then some ((digitsVal cs : Int)) else none
    else
      if (c :: cs).all Char.isDigit then some ((digitsVal (c :: cs) : Int)) else none

/-! ### Path primitives

Models of the `os.path` / `pathlib` operations used by the script. -/

/-- `os.path.basename`: the part after the last slash. -/
def basename (p : String) : String :=
  ⟨(p.toList.reverse.takeWhile (fun c => c ≠ '/')).reverse⟩

/-- The part of a path up to and including the last slash (empty when
the path has no slash); `parentOf p ++ basename p = p`. -/
def parentOf (p : String) : String :=
  ⟨(p.toList.reverse.dropWhile (fun c => c ≠ '/')).reverse⟩

/-- `pathlib.PurePath.suffix` of a final component: the substring from
the last dot, provided that dot is neither the first nor the last
character; otherwise empty. -/
def suffixOf (name : String) : String :=
  let r := name.toList.reverse
  let pre := r.takeWhile (fun c => c ≠ '.')
  if pre.length = r.length then ""
  else if pre.isEmpty then ""
  else if pre.length + 1 = r.length then ""
  else ⟨'.' :: pre.reverse⟩

/-- `pathlib.PurePath.stem` of a final component: the component minus
its suffix. -/
def stemOf (name : String) : String :=
  ⟨name.toList.take (name.toList.length - (suffixOf name).toList.length)⟩

/-- `pathlib.PurePath.with_stem`: replace the stem, keeping parent and
suffix. -/
def with_stem (p : String) (stem : String) : String :=
  parentOf p ++ stem ++ suffixOf (basename p)

/-! ### Result remapping (`remap_partition_results`)

The pure data transformation of `remap_partition_results`: the
partition file is read line by line into a dict keyed `1, 2, ...` with
`int(line.strip())` values; the key file lines are unpacked as
`a, b = line.split()` then `a, b = int(a), int(b)` and stored as
`mappings[b] = a`; finally for every `(k, v)` of the partition dict in
insertion (= line) order the line `f'{mappings[k]} {v}'` is written.
The Python `ValueError`s raised while parsing and the `KeyError`
raised by `mappings[k]` correspond to the specification's
`MalformedKeyRecord` / `UnknownDenseID` taxonomy. -/

/-- Data-integrity failures of the remap stage (the specification's
taxonomy for the `ValueError` / `KeyError` the code raises). -/
inductive RemapError where
  /-- A key-file line that does not unpack into two integer tokens
  (Python `ValueError`). -/
  | malformedKeyRecord (line : String)
  /-- A partition-file line whose stripped text is not an integer
  (Python `ValueError`). -/
  | badAssignmentLine (line : String)
  /-- `mappings[k]` lookup failure (Python `KeyError`). -/
  | unknownDenseID (k : Int)
deriving DecidableEq, Repr

/-- Loading the partition file: line number `i` (1-based, so the key is
the running index plus one) maps to `int(line.strip())`. -/
def loadPartitionsAux (i : Int) : List String → Except RemapError (List (Int × Int))
  | [] => Except.ok []
  | l :: ls =>
    match pyParseInt (pyStrip l) with
    | none => Except.error (RemapError.badAssignmentLine l)
    | some v =>
      match loadPartitionsAux (i + 1) ls with
      | Except.error e => Except.error e
      | Except.ok rest => Except.ok ((i + 1, v) :: rest)

/-- The `partitions` dict of `remap_partition_results`, as the list of
its insertion-ordered entries. -/
def loadPartitions (lines : List String) : Except RemapError (List (Int × Int)) :=
  loadPartitionsAux 0 lines

/-- The `mappings` dict of `remap_partition_results`, as the list of
the assignments `mappings[b] = a` in execution order (a later
assignment to the same key shadows an earlier one, see `dictGet`). -/
def loadMappings : List String → Except RemapError (List (Int × Int))
  | [] => Except.ok []
  | l :: ls =>
    match pySplit l with
    | [a, b] =>
      match pyParseInt a, pyParseInt b with
      | some ai, some bi =>
        match loadMappings ls with
        | Except.error e => Except.error e
        | Except.ok rest => Except.ok ((bi, ai) :: rest)
      | _, _ => Except.error (RemapError.malformedKeyRecord l)
    | _ => Except.error (RemapError.malformedKeyRecord l)

/-- Python dict lookup over an assignment list: the last assignment to
the key wins, absence is `none` (`KeyError`). -/
def dictGet (m : List (Int × Int)) (k : Int) : Option Int :=
  m.foldl (fun acc p => if p.1 = k then some p.2 else acc) none

/-- The writing loop of `remap_partition_results`: for each partition
entry `(k, v)` in order, emit `f'{mappings[k]} {v}'`; a missing key is
the `KeyError` the specification calls `UnknownDenseID`. -/
def writeRemapped (parts : List (Int × Int)) (m : List (Int × Int)) :
    Except RemapError (List String) :=
  match parts with
  | [] => Except.ok []
  | (k, v) :: rest =>
    match dictGet m k with
    | none => Except.error (RemapError.unknownDenseID k)
    | some lbl =>
      match writeRemapped rest m with
      | Except.error e => Except.error e
      | Except.ok tail => Except.ok ((toString lbl ++ " " ++ toString v) :: tail)

/-- `remap_partition_results`, on the contents of the partition file it
opens (`partition_<basename of formatted_file>`) and of the key file:
the rewritten contents of the partition file, or the first
data-integrity error. -/
def remap_partition_results (result_lines key_lines : List String) :
    Except RemapError (List String) :=
  match loadPartitions result_lines with
  | Except.error e => Except.error e
  | Except.ok parts =>
    match loadMappings key_lines with
    | Except.error e => Except.error e
    | Except.ok m => writeRemapped parts m

/-- The Dense IDs `i + 1, i + 2, ...` (`n` of them), the keys the
partition loader assigns to successive lines. -/
def denseIds (i : Int) : Nat → List Int
  | 0 => []
  | Nat.succ n => (i + 1) :: denseIds (i + 1) n

/-- A key-file line the loader accepts: exactly two whitespace-separated
tokens, both parsing as integers. -/
def goodKeyLine (l : String) : Bool :=
  match pySplit l with
  | [a, b] => (pyParseInt a).isSome && (pyParseInt b).isSome
  | _ => false

/-- Whether an `Except` value is a success. -/
def exOk {α : Type} (x : Except RemapError α) : Bool :=
  match x with
  | Except.ok _ => true
  | Except.error _ => false

/-! ### Effects and exceptions of the pipeline

Each effectful function of the script is embedded as a Lean function
from its arguments (plus an environment describing the behaviour of the
external world: subprocess outcomes, file existence, file contents) to
an `Except` result together with the ordered list of effects it
performed.  Python exceptions are the `Except.error` values; `finally`
is modelled explicitly in `gcm`. -/

/-- One observable effect of the script. -/
inductive Event where
  /-- A `subprocess.run` invocation with the given argv. -/
  | runProc (args : List String)
  /-- A `print` of a diagnostic. -/
  | print (msg : String)
  /-- `os.makedirs`. -/
  | makedirs (dir : String)
  /-- `shutil.copy`. -/
  | copyFile (src dst : String)
  /-- `os.chdir`. -/
  | chdir (dir : String)
  /-- `shutil.rmtree`. -/
  | rmtree (dir : String)
  /-- Invocation of `remap_partition_results` on the named key file and
  formatted file. -/
  | remapCall (keyfile formatted : String)
deriving DecidableEq, Repr

/-- The Python exceptions the script can raise or handle. -/
inductive PyExc where
  /-- `FileNotFoundError` (missing executable, or `open` on a missing
  file). -/
  | fileNotFound
  /-- `subprocess.CalledProcessError` with the child's exit code. -/
  | calledProcessError (returncode : Int)
  /-- `subprocess.TimeoutExpired`. -/
  | timeoutExpired
  /-- The `ValueError` / `KeyError` of the remap stage, carried with its
  data-integrity meaning. -/
  | remapFailure (e : RemapError)
  /-- An `OSError` from `os.makedirs` or `shutil.copy` (collision,
  permission denied, missing input). -/
  | osError (msg : String)
  /-- `UnboundLocalError`: a local variable referenced before
  assignment. -/
  | unboundLocalError (name : String)
deriving DecidableEq, Repr

/-- What an external child process does when invoked. -/
inductive StepOutcome where
  /-- Exits with status 0. -/
  | ok
  /-- The executable cannot be found (`FileNotFoundError`). -/
  | notFound
  /-- Exits with the given non-zero status. -/
  | nonZero (returncode : Int)
  /-- Exceeds a configured timeout (`TimeoutExpired`). -/
  | timeout
deriving DecidableEq, Repr

/-- Diagnostic printed for a missing executable (the interpolated
exception text is elided). -/
def msgNotFound : String :=
  "Process failed because the executable could not be found."

/-- Diagnostic printed for a non-zero exit of a checked step (the
interpolated exception text is elided). -/
def msgNonZero (returncode : Int) : String :=
  "Process failed: did not return a successful code. Returned " ++ toString returncode

/-- Diagnostic printed for a timeout (the interpolated exception text
is elided). -/
def msgTimeout : String := "Process timed out."

/-- Diagnostic printed by the cleanup step when no result file exists. -/
def msgNoResult : String := "Error encountered, no result exists"

/-- `subprocess.run(args, check)`: records the invocation; raises
`FileNotFoundError` when the executable is missing, `TimeoutExpired` on
timeout, and `CalledProcessError` on a non-zero exit when and only when
`check` is set. -/
def subprocess_run (args : List String) (check : Bool) (outcome : StepOutcome) :
    Except PyExc Unit × List Event :=
  match outcome with
  | StepOutcome.ok => (Except.ok (), [Event.runProc args])
  | StepOutcome.notFound => (Except.error PyExc.fileNotFound, [Event.runProc args])
  | StepOutcome.nonZero c =>
    (if check then Except.error (PyExc.calledProcessError c) else Except.ok (),
     [Event.runProc args])
  | StepOutcome.timeout => (Except.error PyExc.timeoutExpired, [Event.runProc args])

/-- The `subprocess_context` context manager: catches
`FileNotFoundError`, `CalledProcessError` and `TimeoutExpired`, turning
each into a printed diagnostic; any other exception propagates. -/
def subprocess_context (r : Except PyExc Unit × List Event) :
    Except PyExc Unit × List Event :=
  match r with
  | (Except.ok u, t) => (Except.ok u, t)
  | (Except.error PyExc.fileNotFound, t) =>
    (Except.ok (), t ++ [Event.print msgNotFound])
  | (Except.error (PyExc.calledProcessError c), t) =>
    (Except.ok (), t ++ [Event.print (msgNonZero c)])
  | (Except.error PyExc.timeoutExpired, t) =>
    (Except.ok (), t ++ [Event.print msgTimeout])
  | (Except.error e, t) => (Except.error e, t)

/-- `run_work_script`: runs `bash <source_dir>/work.sh <filename>` with
`check=True` inside `subprocess_context`. -/
def run_work_script (source_dir filename : String) (outcome : StepOutcome) :
    Except PyExc Unit × List Event :=
  subprocess_context (subprocess_run ["bash", source_dir ++ "/work.sh", filename] true outcome)

/-- `run_format_script`: runs
`python <source_dir>/format_edgelist.py <filename> --sep <sep>` (the
`sep` default is `"space"`, no `check`) inside `subprocess_context`,
then returns the `<stem>_formatted<ext>` and `<stem>_key<ext>` names. -/
def run_format_script (source_dir filename : String) (sep : Option String)
    (outcome : StepOutcome) : Except PyExc (String × String) × List Event :=
  match subprocess_context (subprocess_run
      ["python", source_dir ++ "/format_edgelist.py", filename, "--sep", sep.getD "space"]
      false outcome) with
  | (Except.ok _, t) =>
    (Except.ok (with_stem filename (stemOf (basename filename) ++ "_formatted"),
                with_stem filename (stemOf (basename filename) ++ "_key")), t)
  | (Except.error e, t) => (Except.error e, t)

/-- `run_clustering`: runs
`<source_dir>/a.out 2 5 2 <seed> <chi> <filename>` with `check=True`
inside `subprocess_context`.  `seed` and `chi` are the decimal
renderings of the numeric parameters (Python interpolates them with
f-strings). -/
def run_clustering (source_dir filename chi seed : String) (outcome : StepOutcome) :
    Except PyExc Unit × List Event :=
  subprocess_context (subprocess_run
    [source_dir ++ "/a.out", "2", "5", "2", seed, chi, filename] true outcome)

/-- `_setup_and_enter_scratch`: creates
`<initial>/gcm_cache_<random suffix>`, copies the input file into it and
changes into it.  `makedirs_fails` / `copy_fails` describe whether the
two fallible filesystem calls raise. -/
def setup_and_enter_scratch (suffix : String) (makedirs_fails copy_fails : Option PyExc)
    (initial_working_directory input_file : String) :
    Except PyExc (String × String) × List Event :=
  let scratch_directory := initial_working_directory ++ "/gcm_cache_" ++ suffix
  match makedirs_fails with
  | some e => (Except.error e, [])
  | none =>
    let scratch_file := scratch_directory ++ "/" ++ basename input_file
    match copy_fails with
    | some e => (Except.error e, [Event.makedirs scratch_directory])
    | none =>
      (Except.ok (scratch_directory, scratch_file),
       [Event.makedirs scratch_directory,
        Event.copyFile input_file scratch_file,
        Event.chdir scratch_directory])

/-- `_exit_and_cleanup_scratch`: computes
`partition_<basename of formatted_file>`, copies it to
`<output_dir>/<output_file>` when it exists (else prints a diagnostic),
then unconditionally restores the initial working directory and removes
the scratch directory when it is present.  `result_exists` and
`scratch_exists` are the two `os.path.exists` answers. -/
def exit_and_cleanup_scratch (result_exists scratch_exists : Bool)
    (output_dir output_file initial_working_dir scratch_directory formatted_file : String) :
    Except PyExc Unit × List Event :=
  let result_filename := "partition_" ++ basename formatted_file
  let output_filepath := output_dir ++ "/" ++ output_file
  let result_filepath := scratch_directory ++ "/" ++ result_filename
  (Except.ok (),
   (if result_exists then [Event.copyFile result_filepath output_filepath]
    else [Event.print msgNoResult]) ++
   [Event.chdir initial_working_dir] ++
   (if scratch_exists then [Event.rmtree scratch_directory] else []))

/-- The exception behaviour of the `remap_partition_results` call made
by `gcm`: `open` on a missing partition or key file raises
`FileNotFoundError` (both files are given as `none` when absent,
`some lines` when present), and the parsing / lookup failures of the
pure remap logic raise with their data-integrity meaning. -/
def remap_result (partition_lines key_lines : Option (List String)) :
    Except PyExc Unit :=
  match partition_lines with
  | none => Except.error PyExc.fileNotFound
  | some pl =>
    match loadPartitions pl with
    | Except.error e => Except.error (PyExc.remapFailure e)
    | Except.ok parts =>
      match key_lines with
      | none => Except.error PyExc.fileNotFound
      | some kl =>
        match loadMappings kl with
        | Except.error e => Except.error (PyExc.remapFailure e)
        | Except.ok m =>
          match writeRemapped parts m with
          | Except.error e => Except.error (PyExc.remapFailure e)
          | Except.ok _ => Except.ok ()

/-- Everything the external world decides during one `gcm` run. -/
structure GcmEnv where
  /-- The random scratch-directory suffix `generate_random_string()`
  produced. -/
  suffix : String
  /-- Whether `os.makedirs` raises (name collision, permission). -/
  makedirs_fails : Option PyExc
  /-- Whether staging `shutil.copy` raises. -/
  copy_fails : Option PyExc
  /-- Behaviour of the formatter child process. -/
  format_outcome : StepOutcome
  /-- Behaviour of the work-script child process. -/
  work_outcome : StepOutcome
  /-- Behaviour of the clustering child process. -/
  cluster_outcome : StepOutcome
  /-- Contents of the partition file when the remap stage opens it
  (`none` when the file does not exist). -/
  partition_lines : Option (List String)
  /-- Contents of the key file when the remap stage opens it. -/
  key_lines : Option (List String)
  /-- Whether the result file exists at publish time. -/
  result_exists : Bool
  /-- Whether the scratch directory still exists at cleanup time. -/
  scratch_exists : Bool
deriving DecidableEq, Repr

/-- The caller-supplied arguments of `gcm`, plus the ambient state it
reads (`os.getcwd()`, the directory of the script).  `chi` and `seed`
are carried as their decimal renderings. -/
structure GcmArgs where
  /-- The input edge-list path. -/
  input_file : String
  /-- `f"{chi}"`. -/
  chi : String
  /-- `f"{seed}"`. -/
  seed : String
  /-- `--output_dir`, `none` meaning the initial working directory. -/
  output_dir : Option String
  /-- `--output_file`, `none` meaning `clustering_output.txt`. -/
  output_file : Option String
  /-- `--sep`, `none` meaning `"space"`. -/
  sep : Option String
  /-- `os.getcwd()` at entry. -/
  initial_working_directory : String
  /-- The directory containing the script and its companion
  executables. -/
  source_dir : String
deriving DecidableEq, Repr

/-- The scratch directory a run would use. -/
def scratch_dir_of (env : GcmEnv) (a : GcmArgs) : String :=
  a.initial_working_directory ++ "/gcm_cache_" ++ env.suffix

/-- The staged copy of the input file. -/
def scratch_file_of (env : GcmEnv) (a : GcmArgs) : String :=
  scratch_dir_of env a ++ "/" ++ basename a.input_file

/-- The relative filename `gcm` hands to the formatter. -/
def staged_input_name (env : GcmEnv) (a : GcmArgs) : String :=
  basename (scratch_file_of env a)

/-- The formatted-file name returned by the formatter wrapper. -/
def formatted_of (env : GcmEnv) (a : GcmArgs) : String :=
  with_stem (staged_input_name env a)
    (stemOf (basename (staged_input_name env a)) ++ "_formatted")

/-- The key-file name returned by the formatter wrapper. -/
def key_of (env : GcmEnv) (a : GcmArgs) : String :=
  with_stem (staged_input_name env a)
    (stemOf (basename (staged_input_name env a)) ++ "_key")

/-- The trace of the cleanup step as `gcm` invokes it from its
`finally` block (once staging has bound its locals). -/
def cleanupTrace (env : GcmEnv) (a : GcmArgs) : List Event :=
  (exit_and_cleanup_scratch env.result_exists env.scratch_exists
    (a.output_dir.getD a.initial_working_directory)
    (a.output_file.getD "clustering_output.txt")
    a.initial_working_directory (scratch_dir_of env a) (formatted_of env a)).2

/-- The pipeline entry point `gcm`.  The `try` body stages the input,
formats, runs the work script, runs clustering and remaps; the
`finally` block calls `_exit_and_cleanup_scratch`.  When the `try` body
failed before `scratch_directory` / `formatted_file` were assigned, the
`finally` block itself raises `UnboundLocalError` while evaluating the
call's arguments, replacing the original exception, and none of the
cleanup body executes. -/
def gcm (env : GcmEnv) (a : GcmArgs) : Except PyExc Unit × List Event :=
  let output_dir := a.output_dir.getD a.initial_working_directory
  let output_file := a.output_file.getD "clustering_output.txt"
  match setup_and_enter_scratch env.suffix env.makedirs_fails env.copy_fails
      a.initial_working_directory a.input_file with
  | (Except.error _, t0) =>
    (Except.error (PyExc.unboundLocalError "scratch_directory"), t0)
  | (Except.ok (scratch_directory, scratch_file), t0) =>
    match run_format_script a.source_dir (basename scratch_file) a.sep env.format_outcome with
    | (Except.error _, t1) =>
      (Except.error (PyExc.unboundLocalError "formatted_file"), t0 ++ t1)
    | (Except.ok (formatted_file, key_file), t1) =>
      let body : Except PyExc Unit × List Event :=
        match run_work_script a.source_dir (basename formatted_file) env.work_outcome with
        | (Except.error e, t2) => (Except.error e, t2)
        | (Except.ok _, t2) =>
          match run_clustering a.source_dir (basename formatted_file) a.chi a.seed
              env.cluster_outcome with
          | (Except.error e, t3) => (Except.error e, t2 ++ t3)
          | (Except.ok _, t3) =>
            (remap_result env.partition_lines env.key_lines,
             t2 ++ t3 ++ [Event.remapCall key_file formatted_file])
      let cleanup := exit_and_cleanup_scratch env.result_exists env.scratch_exists
        output_dir output_file a.initial_working_directory scratch_directory formatted_file
      match body with
      | (Except.error e, tb) => (Except.error e, t0 ++ t1 ++ tb ++ cleanup.2)
      | (Except.ok _, tb) => (cleanup.1, t0 ++ t1 ++ tb ++ cleanup.2)

/-! ### Lemmas about the pure remap logic -/

/-- The keys the partition loader produces are the consecutive Dense
IDs starting right after `i`. -/
lemma loadPartitionsAux_ids (ls : List String) : ∀ (i : Int) (parts : List (Int × Int)),
    loadPartitionsAux i ls = Except.ok parts → parts.map Prod.fst = denseIds i ls.length := by
  induction ls with
  | nil =>
    intro i parts h
    simp only [loadPartitionsAux] at h
    cases h
    rfl
  | cons l ls ih =>
    intro i parts h
    unfold loadPartitionsAux at h
    cases hp : pyParseInt (pyStrip l) with
    | none => rw [hp] at h; cases h
    | some v =>
      rw [hp] at h
      cases hr : loadPartitionsAux (i + 1) ls with
      | error e => rw [hr] at h; cases h
      | ok rest =>
        rw [hr] at h
        cases h
        simp only [List.map_cons, List.length_cons, denseIds, List.cons.injEq]
        exact ⟨trivial, ih (i + 1) rest hr⟩

/-- When every partition key is present in the mappings, the writing
loop succeeds and emits one `"<label> <cluster>"` line per entry. -/
lemma writeRemapped_ok : ∀ (parts m : List (Int × Int)),
    (∀ p ∈ parts, (dictGet m p.1).isSome = true) →
    writeRemapped parts m =
      Except.ok (parts.map (fun p => toString ((dictGet m p.1).getD 0) ++ " " ++ toString p.2)) := by
  intro parts
  induction parts with
  | nil => intro m _; rfl
  | cons p rest ih =>
    intro m h
    obtain ⟨k, v⟩ := p
    have hk : (dictGet m k).isSome = true := h (k, v) (List.mem_cons_self _ _)
    obtain ⟨lbl, hl⟩ := Option.isSome_iff_exists.mp hk
    unfold writeRemapped
    rw [hl, ih m (fun q hq => h q (List.mem_cons_of_mem _ hq))]
    simp [hl]

/-- The writing loop fails with `unknownDenseID k` at the first entry
whose key `k` is absent from the mappings. -/
lemma writeRemapped_missing : ∀ (p1 : List (Int × Int)) (k v : Int) (p2 m : List (Int × Int)),
    (∀ q ∈ p1, (dictGet m q.1).isSome = true) → dictGet m k = none →
    writeRemapped (p1 ++ (k, v) :: p2) m = Except.error (RemapError.unknownDenseID k) := by
  intro p1
  induction p1 with
  | nil =>
    intro k v p2 m _ hk
    rw [List.nil_append]
    unfold writeRemapped
    rw [hk]
  | cons q rest ih =>
    intro k v p2 m h hk
    obtain ⟨qk, qv⟩ := q
    have hq : (dictGet m qk).isSome = true := h (qk, qv) (List.mem_cons_self _ _)
    obtain ⟨lbl, hl⟩ := Option.isSome_iff_exists.mp hq
    rw [List.cons_append]
    unfold writeRemapped
    rw [hl, ih k v p2 m (fun r hr => h r (List.mem_cons_of_mem _ hr)) hk]

/-- Success of the key loader is exactly well-formedness of every
line. -/
lemma loadMappings_ok_eq (ls : List String) : exOk (loadMappings ls) = ls.all goodKeyLine := by
  induction ls with
  | nil => rfl
  | cons l ls ih =>
    unfold loadMappings
    cases hs : pySplit l with
    | nil => simp [goodKeyLine, hs, exOk]
    | cons a rest =>
      cases rest with
      | nil => simp [goodKeyLine, hs, exOk]
      | cons b rest2 =>
        cases rest2 with
        | cons c rest3 => simp [goodKeyLine, hs, exOk]
        | nil =>
          cases hpa : pyParseInt a with
          | none => simp [goodKeyLine, hs, hpa, exOk]
          | some ai =>
            cases hpb : pyParseInt b with
            | none => simp [goodKeyLine, hs, hpa, hpb, exOk]
            | some bi =>
              cases hr : loadMappings ls with
              | error e =>
                rw [hr] at ih
                simp [goodKeyLine, hs, hpa, hpb, exOk, ← ih]
              | ok m =>
                rw [hr] at ih
                simp [goodKeyLine, hs, hpa, hpb, exOk, ← ih]

/-- `exOk` names the successful values. -/
lemma exOk_iff {α : Type} (x : Except RemapError α) : exOk x = true ↔ ∃ y, x = Except.ok y := by
  cases x <;> simp [exOk]

/-! ### Claims about the remap stage (C2, C3, C4) -/

/-- Claim C2, counterexample: the specification's own example
`{1 → A, 2 → B, 3 → C}` with assignment `"0\n1\n0\n"` does not produce
`"A 0\nB 1\nC 0\n"`; the key loader converts the label token with
`int(...)`, so the first key line already raises. -/
theorem remap_letter_labels_counterexample :
    remap_partition_results ["0", "1", "0"] ["A 1", "B 2", "C 3"] =
      Except.error (RemapError.malformedKeyRecord "A 1") ∧
    remap_partition_results ["0", "1", "0"] ["A 1", "B 2", "C 3"] ≠
      Except.ok ["A 0", "B 1", "C 0"] := by
  refine ⟨rfl, ?_⟩
  intro h
  rw [show remap_partition_results ["0", "1", "0"] ["A 1", "B 2", "C 3"] =
      Except.error (RemapError.malformedKeyRecord "A 1") from rfl] at h
  exact Except.noConfusion h

/-- Claim C2 (amended): for every assignment file whose lines parse as
integers and every loaded key store with an entry for each positional
Dense ID, remap treats line `i` (1-indexed) as Dense ID `i`, and
rewrites the file so that line `i` becomes
`"<label of Dense ID i> <cluster label i>"`, in ascending Dense-ID
order — where labels are integers, since the loader parses both key
tokens with `int(...)`; e.g. `{1 → 10, 2 → 20, 3 → 30}` with assignment
`"0\n1\n0\n"` yields `"10 0\n20 1\n30 0\n"`. -/
theorem remap_rewrites_in_dense_order (result_lines key_lines : List String)
    (parts m : List (Int × Int))
    (hp : loadPartitions result_lines = Except.ok parts)
    (hm : loadMappings key_lines = Except.ok m)
    (hall : ∀ p ∈ parts, (dictGet m p.1).isSome = true) :
    parts.map Prod.fst = denseIds 0 result_lines.length ∧
    remap_partition_results result_lines key_lines =
      Except.ok (parts.map (fun p => toString ((dictGet m p.1).getD 0) ++ " " ++ toString p.2)) := by
  refine ⟨loadPartitionsAux_ids result_lines 0 parts hp, ?_⟩
  unfold remap_partition_results
  rw [hp, hm]
  exact writeRemapped_ok parts m hall

/-- Claim C2, witness: the amended concrete example. -/
theorem remap_rewrites_in_dense_order_witness :
    remap_partition_results ["0", "1", "0"] ["10 1", "20 2", "30 3"] =
      Except.ok ["10 0", "20 1", "30 0"] := by
  have h := remap_rewrites_in_dense_order ["0", "1", "0"] ["10 1", "20 2", "30 3"]
    [(1, 0), (2, 1), (3, 0)] [(1, 10), (2, 20), (3, 30)] rfl rfl (by decide)
  exact h.2.trans (by rfl)

/-- Claim C3, counterexample: the line `"A 1"` satisfies the claim's
acceptance condition (two tokens, integer second token) but the loader
rejects it, because it also applies `int(...)` to the label token. -/
theorem keyload_nonnumeric_label_counterexample :
    (pySplit "A 1").length = 2 ∧ (pyParseInt "1").isSome = true ∧
    loadMappings ["A 1"] = Except.error (RemapError.malformedKeyRecord "A 1") :=
  ⟨rfl, rfl, rfl⟩

/-- Claim C3 (amended): loading the key store succeeds exactly when
every line splits into exactly two whitespace-separated tokens and BOTH
tokens parse as integers (the label token as well as the dense-ID
token); a malformed line such as `"onlyonefield"` raises the
`MalformedKeyRecord` error rather than being silently skipped. -/
theorem keyload_fails_iff_malformed (key_lines : List String) :
    ((∃ m, loadMappings key_lines = Except.ok m) ↔ ∀ l ∈ key_lines, goodKeyLine l = true) ∧
    (∀ ls, loadMappings ("onlyonefield" :: ls) =
      Except.error (RemapError.malformedKeyRecord "onlyonefield")) := by
  constructor
  · have h : exOk (loadMappings key_lines) = true ↔ ∀ l ∈ key_lines, goodKeyLine l = true := by
      rw [loadMappings_ok_eq]
      exact List.all_eq_true
    exact (exOk_iff (loadMappings key_lines)).symm.trans h
  · intro ls
    rfl

/-- Claim C3, witness: a fully numeric key line is accepted. -/
theorem keyload_fails_iff_malformed_witness :
    ∃ m, loadMappings ["7 1"] = Except.ok m :=
  (keyload_fails_iff_malformed ["7 1"]).1.mpr (by decide)

/-- Claim C4: with well-formed inputs, remap fails with
`UnknownDenseID k` exactly at the first positional Dense ID `k` missing
from the key store, and raises no such error when every positional
Dense ID has an entry. -/
theorem remap_missing_dense_id (result_lines key_lines : List String)
    (parts m : List (Int × Int))
    (hp : loadPartitions result_lines = Except.ok parts)
    (hm : loadMappings key_lines = Except.ok m) :
    (∀ p1 k v p2, parts = p1 ++ (k, v) :: p2 →
        (∀ q ∈ p1, (dictGet m q.1).isSome = true) → dictGet m k = none →
        remap_partition_results result_lines key_lines =
          Except.error (RemapError.unknownDenseID k)) ∧
    ((∀ q ∈ parts, (dictGet m q.1).isSome = true) →
        ∀ k, remap_partition_results result_lines key_lines ≠
          Except.error (RemapError.unknownDenseID k)) := by
  constructor
  · intro p1 k v p2 hparts hgood hmiss
    unfold remap_partition_results
    rw [hp, hm, hparts]
    exact writeRemapped_missing p1 k v p2 m hgood hmiss
  · intro hall k
    have h3 : remap_partition_results result_lines key_lines = writeRemapped parts m := by
      unfold remap_partition_results
      rw [hp, hm]
    rw [h3, writeRemapped_ok parts m hall]
    intro h
    exact Except.noConfusion h

/-- Claim C4, witness: a 4-line assignment against a 3-entry key store
fails on the 4th line. -/
theorem remap_missing_dense_id_witness :
    remap_partition_results ["0", "1", "0", "1"] ["10 1", "20 2", "30 3"] =
      Except.error (RemapError.unknownDenseID 4) :=
  (remap_missing_dense_id ["0", "1", "0", "1"] ["10 1", "20 2", "30 3"]
      [(1, 0), (2, 1), (3, 0), (4, 1)] [(1, 10), (2, 20), (3, 30)] rfl rfl).1
    [(1, 0), (2, 1), (3, 0)] 4 1 [] rfl (by decide) rfl

/-! ### Lemmas about the effectful pipeline -/

/-- The trace of one context-managed subprocess invocation. -/
def ctxTrace (args : List String) (check : Bool) (oc : StepOutcome) : List Event :=
  (subprocess_context (subprocess_run args check oc)).2

/-- Every context-managed invocation returns normally: the three
subprocess exceptions are all caught. -/
lemma ctx_eq (args : List String) (check : Bool) (oc : StepOutcome) :
    subprocess_context (subprocess_run args check oc) = (Except.ok (), ctxTrace args check oc) := by
  cases oc with
  | ok => rfl
  | notFound => rfl
  | nonZero c => cases check <;> rfl
  | timeout => rfl

/-- A context-managed trace is the invocation, possibly followed by one
diagnostic line. -/
lemma ctxTrace_shape (args : List String) (check : Bool) (oc : StepOutcome) :
    ctxTrace args check oc = [Event.runProc args] ∨
    ∃ msg, ctxTrace args check oc = [Event.runProc args, Event.print msg] := by
  cases oc with
  | ok => exact Or.inl rfl
  | notFound => exact Or.inr ⟨msgNotFound, rfl⟩
  | nonZero c =>
    cases check
    · exact Or.inl rfl
    · exact Or.inr ⟨msgNonZero c, rfl⟩
  | timeout => exact Or.inr ⟨msgTimeout, rfl⟩

/-- The invocation argv is always in the context-managed trace. -/
lemma ctxTrace_mem_runProc (args : List String) (check : Bool) (oc : StepOutcome) :
    Event.runProc args ∈ ctxTrace args check oc := by
  rcases ctxTrace_shape args check oc with h | ⟨m, h⟩ <;> simp [h]

/-- A checked step whose child exits non-zero prints the exit-code
diagnostic. -/
lemma ctxTrace_nonZero_checked (args : List String) (c : Int) :
    ctxTrace args true (StepOutcome.nonZero c) =
      [Event.runProc args, Event.print (msgNonZero c)] := rfl

/-- A missing executable prints the not-found diagnostic. -/
lemma ctxTrace_notFound (args : List String) (check : Bool) :
    ctxTrace args check StepOutcome.notFound = [Event.runProc args, Event.print msgNotFound] := rfl

/-- A timed-out step prints the timeout diagnostic. -/
lemma ctxTrace_timeout (args : List String) (check : Bool) :
    ctxTrace args check StepOutcome.timeout = [Event.runProc args, Event.print msgTimeout] := rfl

/-- `run_work_script` never raises (check=True inside the context). -/
lemma run_work_script_eq (d fn : String) (oc : StepOutcome) :
    run_work_script d fn oc = (Except.ok (), ctxTrace ["bash", d ++ "/work.sh", fn] true oc) := by
  unfold run_work_script
  rw [ctx_eq]

/-- `run_clustering` never raises, and always passes the literal
protocol constants 2 5 2, then seed, chi, filename. -/
lemma run_clustering_eq (d fn chi seed : String) (oc : StepOutcome) :
    run_clustering d fn chi seed oc =
      (Except.ok (), ctxTrace [d ++ "/a.out", "2", "5", "2", seed, chi, fn] true oc) := by
  unfold run_clustering
  rw [ctx_eq]

/-- `run_format_script` never raises and always returns the fixed
naming convention. -/
lemma run_format_script_eq (d fn : String) (sep : Option String) (oc : StepOutcome) :
    run_format_script d fn sep oc =
      (Except.ok (with_stem fn (stemOf (basename fn) ++ "_formatted"),
                  with_stem fn (stemOf (basename fn) ++ "_key")),
       ctxTrace ["python", d ++ "/format_edgelist.py", fn, "--sep", sep.getD "space"]
         false oc) := by
  unfold run_format_script
  rw [ctx_eq]

/-- Occurrence count of one event in a trace. -/
def countEv (ev : Event) (t : List Event) : Nat :=
  t.countP (fun x => decide (x = ev))

/-- Counting distributes over trace concatenation. -/
lemma countEv_append (ev : Event) (s t : List Event) :
    countEv ev (s ++ t) = countEv ev s + countEv ev t := by
  simp [countEv, List.countP_append]

/-- Counting over an empty trace. -/
lemma countEv_nil (ev : Event) : countEv ev [] = 0 := rfl

/-- Counting over a trace extension. -/
lemma countEv_cons (ev e : Event) (t : List Event) :
    countEv ev (e :: t) = countEv ev t + (if e = ev then 1 else 0) := by
  simp [countEv, List.countP_cons]

/-- A subprocess trace performs no `chdir`. -/
lemma ctxTrace_count_chdir (args : List String) (check : Bool) (oc : StepOutcome) (d : String) :
    countEv (Event.chdir d) (ctxTrace args check oc) = 0 := by
  rcases ctxTrace_shape args check oc with h | ⟨m, h⟩ <;>
    simp [h, countEv_cons, countEv_nil]

/-- A subprocess trace performs no `rmtree`. -/
lemma ctxTrace_count_rmtree (args : List String) (check : Bool) (oc : StepOutcome) (d : String) :
    countEv (Event.rmtree d) (ctxTrace args check oc) = 0 := by
  rcases ctxTrace_shape args check oc with h | ⟨m, h⟩ <;>
    simp [h, countEv_cons, countEv_nil]

/-- The scratch directory name strictly extends the initial working
directory name, so the two differ. -/
lemma scratch_dir_ne_initial (env : GcmEnv) (a : GcmArgs) :
    scratch_dir_of env a ≠ a.initial_working_directory := by
  intro h
  have hl := congrArg String.length h
  unfold scratch_dir_of at hl
  rw [String.length_append, String.length_append] at hl
  have h11 : "/gcm_cache_".length = 11 := rfl
  rw [h11] at hl
  omega

/-- Master shape of a staged run: once staging succeeds, `gcm` performs
staging, the three subprocess stages, the remap call and the cleanup,
in that order, and returns whatever the remap stage produced (the
`finally` block reraises a remap failure after cleanup, and a clean run
returns normally). -/
lemma gcm_staged_eq (env : GcmEnv) (a : GcmArgs)
    (h1 : env.makedirs_fails = none) (h2 : env.copy_fails = none) :
    gcm env a =
      (remap_result env.partition_lines env.key_lines,
       [Event.makedirs (scratch_dir_of env a),
        Event.copyFile a.input_file (scratch_file_of env a),
        Event.chdir (scratch_dir_of env a)] ++
       ctxTrace ["python", a.source_dir ++ "/format_edgelist.py", staged_input_name env a,
         "--sep", a.sep.getD "space"] false env.format_outcome ++
       ctxTrace ["bash", a.source_dir ++ "/work.sh", basename (formatted_of env a)] true
         env.work_outcome ++
       ctxTrace [a.source_dir ++ "/a.out", "2", "5", "2", a.seed, a.chi,
         basename (formatted_of env a)] true env.cluster_outcome ++
       [Event.remapCall (key_of env a) (formatted_of env a)] ++
       cleanupTrace env a) := by
  unfold gcm
  rw [h1, h2]
  simp only [setup_and_enter_scratch, run_format_script_eq, run_work_script_eq,
    run_clustering_eq]
  cases hr : remap_result env.partition_lines env.key_lines <;>
    simp [hr, cleanupTrace, scratch_dir_of, scratch_file_of, staged_input_name, formatted_of,
      key_of, exit_and_cleanup_scratch, List.append_assoc]

/-- The cleanup trace, written out. -/
lemma cleanupTrace_eq (env : GcmEnv) (a : GcmArgs) :
    cleanupTrace env a =
      (if env.result_exists then
        [Event.copyFile
          (scratch_dir_of env a ++ "/" ++ ("partition_" ++ basename (formatted_of env a)))
          (a.output_dir.getD a.initial_working_directory ++ "/" ++
            a.output_file.getD "clustering_output.txt")]
       else [Event.print msgNoResult]) ++
      [Event.chdir a.initial_working_directory] ++
      (if env.scratch_exists then [Event.rmtree (scratch_dir_of env a)] else []) := rfl

/-- The cleanup step performs exactly one restore-chdir and exactly one
scratch removal (when the scratch directory is present). -/
lemma cleanupTrace_counts (env : GcmEnv) (a : GcmArgs) (h3 : env.scratch_exists = true) :
    countEv (Event.chdir a.initial_working_directory) (cleanupTrace env a) = 1 ∧
    countEv (Event.rmtree (scratch_dir_of env a)) (cleanupTrace env a) = 1 ∧
    Event.chdir a.initial_working_directory ∈ cleanupTrace env a ∧
    Event.rmtree (scratch_dir_of env a) ∈ cleanupTrace env a := by
  rw [cleanupTrace_eq, h3]
  cases henv : env.result_exists <;>
    simp [countEv_append, countEv_cons, countEv_nil]

/-! ### Concrete run configurations used by witnesses and
counterexamples -/

/-- A concrete argument vector: default output options, default
separator, the documented default seed and chi. -/
def aW : GcmArgs :=
  ⟨"edges.txt", "0.0", "12345", none, none, none, "/home/user", "/tools"⟩

/-- A fully successful run: staging succeeds, all three child processes
exit 0, the partition and key files exist and are consistent. -/
def envOk : GcmEnv :=
  ⟨"ab12", none, none, StepOutcome.ok, StepOutcome.ok, StepOutcome.ok,
   some ["0", "1", "0"], some ["10 1", "20 2", "30 3"], true, true⟩

/-- A run whose key file holds the malformed line `"onlyonefield"`. -/
def envRemapFail : GcmEnv := { envOk with key_lines := some ["onlyonefield"] }

/-- A run whose clustering binary exits with status 1 (and therefore
produced no result file). -/
def envClusterFail : GcmEnv :=
  { envOk with cluster_outcome := StepOutcome.nonZero 1, result_exists := false }

/-- A run whose scratch-directory creation collides. -/
def envStageFail : GcmEnv := { envOk with makedirs_fails := some (PyExc.osError "File exists") }

/-! ### Claims about the pipeline controller (C1, C5, C6, C7, C8, C9,
C10) -/

/-- The cleanup obligations of a staged run: the trace ends with the
cleanup step's events, the original working directory is restored and
the scratch directory removed, each exactly once in the whole run. -/
def cleanupSpec (env : GcmEnv) (a : GcmArgs) : Prop :=
  ∃ r tb, gcm env a = (r, tb ++ cleanupTrace env a) ∧
    countEv (Event.chdir a.initial_working_directory) (gcm env a).2 = 1 ∧
    countEv (Event.rmtree (scratch_dir_of env a)) (gcm env a).2 = 1 ∧
    Event.chdir a.initial_working_directory ∈ cleanupTrace env a ∧
    Event.rmtree (scratch_dir_of env a) ∈ cleanupTrace env a

/-- Claim C1: in every run whose staging step succeeds (whatever the
formatter, work script, clustering binary and remap files then do), the
cleanup step runs exactly once, as the final phase before `gcm` returns:
the trace ends with the cleanup events, restores the original working
directory exactly once and removes the scratch directory exactly
once. -/
theorem gcm_cleanup_runs_once_after_staging (env : GcmEnv) (a : GcmArgs)
    (h1 : env.makedirs_fails = none) (h2 : env.copy_fails = none)
    (h3 : env.scratch_exists = true) : cleanupSpec env a := by
  have hg := gcm_staged_eq env a h1 h2
  have hg2 : (gcm env a).2 =
      [Event.makedirs (scratch_dir_of env a),
       Event.copyFile a.input_file (scratch_file_of env a),
       Event.chdir (scratch_dir_of env a)] ++
      ctxTrace ["python", a.source_dir ++ "/format_edgelist.py", staged_input_name env a,
        "--sep", a.sep.getD "space"] false env.format_outcome ++
      ctxTrace ["bash", a.source_dir ++ "/work.sh", basename (formatted_of env a)] true
        env.work_outcome ++
      ctxTrace [a.source_dir ++ "/a.out", "2", "5", "2", a.seed, a.chi,
        basename (formatted_of env a)] true env.cluster_outcome ++
      [Event.remapCall (key_of env a) (formatted_of env a)] ++
      cleanupTrace env a := by rw [hg]
  have hne := scratch_dir_ne_initial env a
  obtain ⟨hc1, hc2, hm1, hm2⟩ := cleanupTrace_counts env a h3
  refine ⟨remap_result env.partition_lines env.key_lines, _, hg, ?_, ?_, hm1, hm2⟩
  · rw [hg2]
    simp [countEv_append, countEv_cons, countEv_nil, ctxTrace_count_chdir, hc1, hne]
  · rw [hg2]
    simp [countEv_append, countEv_cons, countEv_nil, ctxTrace_count_rmtree, hc2]

/-- Claim C1, witness: the fully successful concrete run satisfies the
cleanup obligations. -/
theorem gcm_cleanup_runs_once_after_staging_witness : cleanupSpec envOk aW :=
  gcm_cleanup_runs_once_after_staging envOk aW rfl rfl rfl

/-- Claim C5, counterexample: a run whose remap stage raises
`MalformedKeyRecord` does propagate the error out of `gcm`, but the
cleanup step DOES run first — its restore-chdir and scratch-removal
events are in the trace, contradicting the claim that cleanup is
bypassed. -/
theorem remap_failure_cleanup_counterexample :
    (gcm envRemapFail aW).1 =
      Except.error (PyExc.remapFailure (RemapError.malformedKeyRecord "onlyonefield")) ∧
    Event.chdir "/home/user" ∈ (gcm envRemapFail aW).2 ∧
    Event.rmtree "/home/user/gcm_cache_ab12" ∈ (gcm envRemapFail aW).2 :=
  ⟨rfl, by decide, by decide⟩

/-- Claim C5 (amended): a remap-stage data-integrity failure propagates
out of `gcm` as an uncaught error, but the `finally` block still runs
the cleanup step before the error reaches the caller: the trace ends
with the cleanup events and the original working directory is
restored. -/
theorem remap_failure_propagates_after_cleanup (env : GcmEnv) (a : GcmArgs) (e : RemapError)
    (h1 : env.makedirs_fails = none) (h2 : env.copy_fails = none)
    (hr : remap_result env.partition_lines env.key_lines =
      Except.error (PyExc.remapFailure e)) :
    (gcm env a).1 = Except.error (PyExc.remapFailure e) ∧
    (∃ tb, gcm env a = (Except.error (PyExc.remapFailure e), tb ++ cleanupTrace env a)) ∧
    Event.chdir a.initial_working_directory ∈ (gcm env a).2 := by
  have hg := gcm_staged_eq env a h1 h2
  rw [hr] at hg
  refine ⟨by rw [hg], ⟨_, hg⟩, ?_⟩
  rw [hg]
  simp [cleanupTrace_eq]

/-- Claim C5, witness: the malformed-key run instantiates the amended
claim. -/
theorem remap_failure_propagates_after_cleanup_witness :
    (gcm envRemapFail aW).1 =
      Except.error (PyExc.remapFailure (RemapError.malformedKeyRecord "onlyonefield")) ∧
    (∃ tb, gcm envRemapFail aW =
      (Except.error (PyExc.remapFailure (RemapError.malformedKeyRecord "onlyonefield")),
       tb ++ cleanupTrace envRemapFail aW)) ∧
    Event.chdir aW.initial_working_directory ∈ (gcm envRemapFail aW).2 :=
  remap_failure_propagates_after_cleanup envRemapFail aW
    (RemapError.malformedKeyRecord "onlyonefield") rfl rfl rfl

/-- What `gcm` does when staging raises: the `finally` block evaluates
the cleanup call's arguments, hits the never-assigned local
`scratch_directory`, and raises `UnboundLocalError` instead — no
publish or cleanup effect happens (the trace holds at most the
`makedirs` attempt). -/
def stagingFailSpec (env : GcmEnv) (a : GcmArgs) : Prop :=
  ∃ t, gcm env a = (Except.error (PyExc.unboundLocalError "scratch_directory"), t) ∧
    ∀ ev ∈ t, ev = Event.makedirs (scratch_dir_of env a)

/-- Claim C6: if `_setup_and_enter_scratch` raises (directory creation
or staging copy fails), the `finally` block of `gcm` references the
unassigned local `scratch_directory`, so `gcm` raises
`UnboundLocalError`: no publish or cleanup logic executes, and the
original staging failure is replaced by this secondary error. -/
theorem gcm_staging_failure_unbound_local (env : GcmEnv) (a : GcmArgs) (e : PyExc)
    (h : env.makedirs_fails = some e ∨
      (env.makedirs_fails = none ∧ env.copy_fails = some e)) :
    stagingFailSpec env a := by
  unfold stagingFailSpec gcm
  rcases h with h | ⟨h1, h2⟩
  · rw [h]
    refine ⟨[], ?_, by simp⟩
    simp [setup_and_enter_scratch]
  · rw [h1, h2]
    refine ⟨[Event.makedirs (scratch_dir_of env a)], ?_, by simp⟩
    simp [setup_and_enter_scratch, scratch_dir_of]

/-- Claim C6, witness: a concrete run whose `os.makedirs` collides. -/
theorem gcm_staging_failure_unbound_local_witness : stagingFailSpec envStageFail aW :=
  gcm_staging_failure_unbound_local envStageFail aW (PyExc.osError "File exists") (Or.inl rfl)

/-- Claim C7, counterexample: in a run whose clustering binary exits
with status 1, the non-zero exit is printed — and then the remap stage
still executes (its invocation is in the trace) and `gcm` returns
normally, contradicting the claim that no subsequent stage runs. -/
theorem clustering_nonzero_counterexample :
    Event.print (msgNonZero 1) ∈ (gcm envClusterFail aW).2 ∧
    Event.remapCall "edges_key.txt" "edges_formatted.txt" ∈ (gcm envClusterFail aW).2 ∧
    (gcm envClusterFail aW).1 = Except.ok () :=
  ⟨by decide, by decide, rfl⟩

/-- Claim C7 (amended): the clustering step always runs with
checked-exit enforcement, so a non-zero exit raises
`CalledProcessError` — but `subprocess_context` catches it at the
invocation boundary and prints the exit-code diagnostic, and the
pipeline CONTINUES: the remap stage is still invoked afterwards, and
the run still ends with the cleanup/publish step. -/
theorem clustering_nonzero_prints_and_continues (env : GcmEnv) (a : GcmArgs) (c : Int)
    (h1 : env.makedirs_fails = none) (h2 : env.copy_fails = none)
    (hc : env.cluster_outcome = StepOutcome.nonZero c) :
    Event.print (msgNonZero c) ∈ (gcm env a).2 ∧
    Event.remapCall (key_of env a) (formatted_of env a) ∈ (gcm env a).2 ∧
    ∃ tb r, gcm env a = (r, tb ++ cleanupTrace env a) := by
  have hg := gcm_staged_eq env a h1 h2
  rw [hc] at hg
  have hg2 := congrArg Prod.snd hg
  simp only at hg2
  refine ⟨?_, ?_, _, _, hg⟩
  · rw [hg2]
    simp [ctxTrace_nonZero_checked]
  · rw [hg2]
    simp

/-- Claim C7, witness: the concrete failing-clustering run. -/
theorem clustering_nonzero_prints_and_continues_witness :
    Event.print (msgNonZero 1) ∈ (gcm envClusterFail aW).2 ∧
    Event.remapCall (key_of envClusterFail aW) (formatted_of envClusterFail aW) ∈
      (gcm envClusterFail aW).2 ∧
    ∃ tb r, gcm envClusterFail aW = (r, tb ++ cleanupTrace envClusterFail aW) :=
  clustering_nonzero_prints_and_continues envClusterFail aW 1 rfl rfl rfl

/-- Claim C8: every external-step invocation (work script, clustering,
formatter) confines the three subprocess failure kinds at the
invocation boundary: the invoker returns normally in every case, a
missing executable and a timeout print their diagnostics at every
step, a non-zero exit prints its diagnostic at the checked steps (the
formatter runs unchecked, so its non-zero exit raises nothing to
convert), and every staged run still reaches the cleanup/publish
step. -/
theorem external_step_failures_confined (d f chi seed : String) (sep : Option String)
    (oc : StepOutcome) :
    (run_work_script d f oc).1 = Except.ok () ∧
    (run_clustering d f chi seed oc).1 = Except.ok () ∧
    (∃ names, (run_format_script d f sep oc).1 = Except.ok names) ∧
    (oc = StepOutcome.notFound →
      Event.print msgNotFound ∈ (run_work_script d f oc).2 ∧
      Event.print msgNotFound ∈ (run_clustering d f chi seed oc).2 ∧
      Event.print msgNotFound ∈ (run_format_script d f sep oc).2) ∧
    (∀ rc, oc = StepOutcome.nonZero rc →
      Event.print (msgNonZero rc) ∈ (run_work_script d f oc).2 ∧
      Event.print (msgNonZero rc) ∈ (run_clustering d f chi seed oc).2) ∧
    (oc = StepOutcome.timeout →
      Event.print msgTimeout ∈ (run_work_script d f oc).2 ∧
      Event.print msgTimeout ∈ (run_clustering d f chi seed oc).2 ∧
      Event.print msgTimeout ∈ (run_format_script d f sep oc).2) ∧
    (∀ env a, GcmEnv.makedirs_fails env = none → GcmEnv.copy_fails env = none →
      ∃ tb r, gcm env a = (r, tb ++ cleanupTrace env a)) := by
  refine ⟨?_, ?_, ?_, ?_, ?_, ?_, ?_⟩
  · rw [run_work_script_eq]
  · rw [run_clustering_eq]
  · exact ⟨_, by rw [run_format_script_eq]⟩
  · intro h
    subst h
    rw [run_work_script_eq, run_clustering_eq, run_format_script_eq]
    simp [ctxTrace_notFound]
  · intro rc h
    subst h
    rw [run_work_script_eq, run_clustering_eq]
    simp [ctxTrace_nonZero_checked]
  · intro h
    subst h
    rw [run_work_script_eq, run_clustering_eq, run_format_script_eq]
    simp [ctxTrace_timeout]
  · intro env a h1 h2
    exact ⟨_, _, gcm_staged_eq env a h1 h2⟩

/-- Claim C9: the publish step computes the result name as the literal
prefix `"partition_"` plus the formatted file's basename; when that
file exists it is copied to `<output_dir>/<output_file>`, when it does
not a diagnostic is printed instead, and in both cases the step then
restores the original working directory, removes the workspace when
present, and never raises. -/
theorem exit_and_cleanup_best_effort (scratch_present : Bool)
    (output_dir output_file initial_wd scratch_dir formatted_file : String) :
    (∀ result_present, (exit_and_cleanup_scratch result_present scratch_present output_dir
        output_file initial_wd scratch_dir formatted_file).1 = Except.ok ()) ∧
    (exit_and_cleanup_scratch true scratch_present output_dir output_file initial_wd
        scratch_dir formatted_file).2 =
      Event.copyFile (scratch_dir ++ "/" ++ ("partition_" ++ basename formatted_file))
          (output_dir ++ "/" ++ output_file) ::
        Event.chdir initial_wd ::
        (if scratch_present then [Event.rmtree scratch_dir] else []) ∧
    (exit_and_cleanup_scratch false scratch_present output_dir output_file initial_wd
        scratch_dir formatted_file).2 =
      Event.print msgNoResult ::
        Event.chdir initial_wd ::
        (if scratch_present then [Event.rmtree scratch_dir] else []) :=
  ⟨fun _ => rfl, rfl, rfl⟩

/-- Claim C10: every run reaching the clustering stage invokes the
clustering binary with exactly six positional arguments after the
executable, in order: the literals `"2"`, `"5"`, `"2"`, then the seed,
then the chi value, then the formatted filename. -/
theorem clustering_invocation_args (env : GcmEnv) (a : GcmArgs)
    (h1 : env.makedirs_fails = none) (h2 : env.copy_fails = none) :
    Event.runProc [a.source_dir ++ "/a.out", "2", "5", "2", a.seed, a.chi,
      basename (formatted_of env a)] ∈ (gcm env a).2 ∧
    (["2", "5", "2", a.seed, a.chi, basename (formatted_of env a)] : List String).length = 6 := by
  have hg := gcm_staged_eq env a h1 h2
  have hg2 := congrArg Prod.snd hg
  simp only at hg2
  refine ⟨?_, rfl⟩
  rw [hg2]
  have hmem := ctxTrace_mem_runProc [a.source_dir ++ "/a.out", "2", "5", "2", a.seed, a.chi,
    basename (formatted_of env a)] true env.cluster_outcome
  simp only [List.mem_append]
  tauto

/-- Claim C10, witness: the successful concrete run invokes the binary
with the six positional arguments. -/
theorem clustering_invocation_args_witness :
    Event.runProc [aW.source_dir ++ "/a.out", "2", "5", "2", aW.seed, aW.chi,
      basename (formatted_of envOk aW)] ∈ (gcm envOk aW).2 ∧
    (["2", "5", "2", aW.seed, aW.chi, basename (formatted_of envOk aW)] : List String).length
      = 6 :=
  clustering_invocation_args envOk aW rfl rfl

end GcmSpec
